import Mathlib

/-!
Verification of the synchronization core of `git-access.c`: the cleanliness
check, the reconciliation protocol of `try_to_update`, the locator parsing of
`is_git_repository` / `is_remote_git_repository`, and the cache addressing of
`get_local_dir`.  The C code is embedded shallowly: pure computations become
Lean functions on `Nat` / `List Char` / `String`; calls into libgit2 and the
filesystem become explicit oracle fields of an environment record, and the
mutable state touched by the code (branch references, the global preferences)
is threaded explicitly.  Machine `unsigned int` values are `Nat`s reduced
modulo 2^32 where the C code could wrap.
-/

/-! ## Cleanliness checker (`check_clean`, git-access.c lines 59-66) -/

/-- Value of libgit2's `GIT_STATUS_CURRENT` flag. -/
def GIT_STATUS_CURRENT : Nat := 0

/-- Value of libgit2's `GIT_STATUS_IGNORED` flag (`1u << 14`). -/
def GIT_STATUS_IGNORED : Nat := 16384

/-- All 32 bits set: the value of `~0u`, used to model `~` on `unsigned int`. -/
def UINT32_MASK : Nat := 4294967295

/-- The status callback `check_clean` of git-access.c lines 59-66, as the
predicate "this entry makes the callback return 1 (dirty)".  The C source is
`status &= ~GIT_STATUS_CURRENT | GIT_STATUS_IGNORED; if (!status) return 0; ...
return 1;` - note that `~` binds tighter than `|`, so the mask is
`(~GIT_STATUS_CURRENT) | GIT_STATUS_IGNORED`. -/
def check_clean (status : Nat) : Bool :=
  let masked := status &&& ((GIT_STATUS_CURRENT ^^^ UINT32_MASK) ||| GIT_STATUS_IGNORED)
  masked != 0

/-- `git_status_foreach repo check_clean NULL` returns nonzero exactly when
`check_clean` returns 1 on some enumerated status entry. -/
def statusDirty (entries : List Nat) : Bool :=
  entries.any check_clean

/-! ## Sync engine (`try_to_update` / `reset_to_remote`, git-access.c 71-199) -/

/-- Reason carried by an aborted sync attempt (the early `report_error`
returns of `try_to_update`). -/
inductive AbortReason where
  | dirtyTree
  | noSha
  | mergeBaseFailed
deriving DecidableEq

/-- The decision produced by one run of `try_to_update`, labelling which
branch of the C code is taken. -/
inductive SyncDecision where
  | NoOp
  | FastForwardLocal
  | PushLocal
  | DivergedBareRepo
  | DivergedNotHead
  | DivergedNeedsMerge
  | Aborted (r : AbortReason)
deriving DecidableEq

/-- The repository state `try_to_update` reads and writes.  A reference is
modelled by its target oid (`none` models a NULL `git_reference_target`);
`statusEntries` are the status flags `git_status_foreach` enumerates. -/
structure SyncState where
  localRef : Option Nat
  remoteRef : Option Nat
  statusEntries : List Nat
  isBare : Bool
  localIsHead : Bool
deriving DecidableEq

/-- Oracles for the libgit2 calls `try_to_update` makes: the merge-base
computation and the success of the mutating backend calls
(`git_reference_set_target`, `git_object_lookup`, `git_reset`,
`git_remote_push`). -/
structure SyncEnv where
  mergeBase : Nat → Nat → Option Nat
  setTargetOk : Bool
  lookupOk : Bool
  resetOk : Bool
  pushOk : Bool

/-- `reset_to_remote` (git-access.c lines 71-102): if the repository is bare
or the local branch is not HEAD, move the reference to `newId` via
`git_reference_set_target`; otherwise look the commit up and hard-reset to
it.  Returns whether the call succeeded together with the resulting state;
a failed backend call leaves the state unchanged. -/
def reset_to_remote (env : SyncEnv) (st : SyncState) (newId : Nat) : Bool × SyncState :=
  if st.isBare || !st.localIsHead then
    if env.setTargetOk then (true, { st with localRef := some newId })
    else (false, st)
  else
    if !env.lookupOk then (false, st)
    else if env.resetOk then (true, { st with localRef := some newId })
    else (false, st)

/-- `update_remote` (git-access.c lines 128-149): pushes the local branch ref
to the remote; the local repository state is unchanged whether or not the
push succeeds. -/
def update_remote (env : SyncEnv) (st : SyncState) : Bool × SyncState :=
  (env.pushOk, st)

/-- `try_to_update` (git-access.c lines 151-199).  Mirrors the C control flow:
reference comparison, cleanliness check, target extraction, merge-base, then
the five-way decision.  Returns the decision label together with the
resulting repository state. -/
def try_to_update (env : SyncEnv) (st : SyncState) : SyncDecision × SyncState :=
  if st.localRef = st.remoteRef then (.NoOp, st)
  else if statusDirty st.statusEntries then (.Aborted .dirtyTree, st)
  else
    match st.localRef, st.remoteRef with
    | some l, some r =>
      match env.mergeBase l r with
      | none => (.Aborted .mergeBaseFailed, st)
      | some base =>
        if base = l then (.FastForwardLocal, (reset_to_remote env st r).2)
        else if base = r then (.PushLocal, (update_remote env st).2)
        else if st.isBare then (.DivergedBareRepo, st)
        else if !st.localIsHead then (.DivergedNotHead, st)
        else (.DivergedNeedsMerge, st)
    | _, _ => (.Aborted .noSha, st)

/-! ## Locator parsing (`is_git_repository`, git-access.c 393-465) -/

/-- The bracket-parsing portion of `is_git_repository` (git-access.c lines
401-417 and 433-438): the string must end in a closing bracket; the matching
opening bracket is found by scanning backward; trailing path separators are
stripped from the path portion; an empty path is a parse failure.  Returns
`(loc, branch)` on success.  The backward C scan over `filename` is expressed
by working on the reversed character list. -/
def parseLocator (s : String) : Option (String × String) :=
  match s.data.reverse with
  | ']' :: rest =>
    match rest.dropWhile (fun c => c != '[') with
    | '[' :: pathRev =>
      if pathRev.dropWhile (fun c => c == '/') = [] then none
      else
        some (String.mk ((pathRev.dropWhile (fun c => c == '/')).reverse),
              String.mk ((rest.takeWhile (fun c => c != '[')).reverse))
    | _ => none
  | _ => none

/-- The scheme scan of `is_remote_git_repository` (git-access.c lines
329-334): consume characters while they are in `a..z`; the terminating
character must be `:` followed by `//`.  The C loop accepts zero letters
before the colon. -/
def schemePrefixOk : List Char → Bool
  | [] => false
  | c :: rest =>
    if 97 ≤ c.toNat ∧ c.toNat ≤ 122 then schemePrefixOk rest
    else if c = ':' then decide (rest.take 2 = ['/', '/'])
    else false

/-- Modelled from the spec: the spec sentence "the path qualifies as a remote
locator only if it begins with one or more lowercase letters followed
immediately by `://`", written as an executable predicate for comparison
with the code's `schemePrefixOk`. -/
def specRemoteTail : List Char → Bool
  | [] => false
  | ':' :: '/' :: '/' :: _ => true
  | c :: rest =>
    if 97 ≤ c.toNat ∧ c.toNat ≤ 122 then specRemoteTail rest else false

/-- Modelled from the spec: one or more lowercase letters, then `://`. -/
def specRemoteOneOrMore : List Char → Bool
  | [] => false
  | c :: rest =>
    if 97 ≤ c.toNat ∧ c.toNat ≤ 122 then specRemoteTail rest else false

/-! ## Preferences and the https credential callback (git-access.c 116-125,
364-382) -/

/-- The slice of the global `prefs` that git-access.c reads or writes. -/
structure Prefs where
  cloud_storage_email_encoded : Option String
  cloud_storage_password : Option String
deriving DecidableEq

/-- The credential pair a libgit2 credential callback produces. -/
structure GitCred where
  username : Option String
  password : String
deriving DecidableEq

/-- `credential_https_cb` (git-access.c lines 116-125): the username is the
stored `prefs.cloud_storage_email_encoded` as-is, the password is the stored
password or `""` when unset.  The same callback is installed for fetch
(`git_fetch_options`), push (`git_push_options`) and clone
(`git_clone_options`). -/
def credential_https_cb (p : Prefs) : GitCred :=
  { username := p.cloud_storage_email_encoded,
    password := p.cloud_storage_password.getD "" }

/-- The https account-extraction condition and computation of
`is_remote_git_repository` (git-access.c lines 364-382): on a string with
prefix `https://`, if the first `@` of the string comes before the first `/`
that follows the prefix, the part between `https://` and the `@` is the
encoded identity and the `memmove` closes the gap, yielding
`https://` ++ the part after the `@`.  Returns `some (identity, newRemote)`
when the extraction fires, `none` when the string is left untouched. -/
def httpsIdentity (remote : String) : Option (String × String) :=
  let l := remote.data
  if (String.data ("https://")).isPrefixOf l then
    match l.findIdx? (fun c => c == '@') with
    | some ai =>
      match (l.drop 8).findIdx? (fun c => c == '/') with
      | some si =>
        if ai < si + 8 then
          some (String.mk ((l.drop 8).take (ai - 8)),
                String.mk (l.take 8 ++ l.drop (ai + 1)))
        else none
      | none => none
    | none => none
  else none

/-- The effect of lines 364-382 on the global preferences and the url: when
the extraction fires, `prefs.cloud_storage_email_encoded` is overwritten with
the extracted identity (a `strndup` of the slice) and the url loses the
identity; otherwise both are unchanged. -/
def httpsEffect (p : Prefs) (remote : String) : Prefs × String :=
  match httpsIdentity remote with
  | some (id, r2) => ({ p with cloud_storage_email_encoded := some id }, r2)
  | none => (p, remote)

/-! ## Cache addressing (`get_local_dir`, git-access.c 40-57).  The SHA1
computation of OpenSSL's `SHA1_Init/Update/Final` is embedded as a pure
function on byte lists (FIPS 180-1), with 32-bit words as `Nat`s reduced
modulo 2^32. -/

/-- 2^32, the modulus of 32-bit unsigned arithmetic. -/
def M32 : Nat := 4294967296

/-- Left-rotation of a 32-bit word by `n` bits. -/
def rotl (n x : Nat) : Nat :=
  ((x <<< n) % M32) ||| (x >>> (32 - n))

/-- Big-endian 4-byte rendering of a 32-bit word. -/
def wordBytes (w : Nat) : List Nat :=
  [w / 16777216 % 256, w / 65536 % 256, w / 256 % 256, w % 256]

/-- Big-endian 8-byte rendering of the 64-bit message bit length. -/
def lenBytes (n : Nat) : List Nat :=
  [n / 72057594037927936 % 256, n / 281474976710656 % 256,
   n / 1099511627776 % 256, n / 4294967296 % 256,
   n / 16777216 % 256, n / 65536 % 256, n / 256 % 256, n % 256]

/-- SHA1 padding: append `0x80`, zero bytes to 56 mod 64, then the bit
length. -/
def sha1Pad (msg : List Nat) : List Nat :=
  msg ++ 128 :: List.replicate ((119 - msg.length % 64) % 64) 0
      ++ lenBytes (msg.length * 8)

/-- Group bytes into big-endian 32-bit words. -/
def toWords : List Nat → List Nat
  | b0 :: b1 :: b2 :: b3 :: rest => (((b0 * 256 + b1) * 256 + b2) * 256 + b3) :: toWords rest
  | _ => []

/-- Message-schedule extension: `fuel` more words pushed onto the reversed
word list, `w(i) = rotl1 (w(i-3) xor w(i-8) xor w(i-14) xor w(i-16))`. -/
def sha1ExtendRev : Nat → List Nat → List Nat
  | 0, rev => rev
  | fuel + 1, rev =>
    sha1ExtendRev fuel
      (rotl 1 ((rev.getD 2 0) ^^^ (rev.getD 7 0) ^^^ (rev.getD 13 0) ^^^ (rev.getD 15 0)) :: rev)

/-- The SHA1 round function for round `i`. -/
def sha1F (i b c d : Nat) : Nat :=
  if i < 20 then (b &&& c) ||| ((b ^^^ UINT32_MASK) &&& d)
  else if i < 40 then b ^^^ c ^^^ d
  else if i < 60 then (b &&& c) ||| (b &&& d) ||| (c &&& d)
  else b ^^^ c ^^^ d

/-- The SHA1 round constant for round `i`. -/
def sha1K (i : Nat) : Nat :=
  if i < 20 then 1518500249
  else if i < 40 then 1859775393
  else if i < 60 then 2400959708
  else 3395469782

/-- One SHA1 round step per scheduled word. -/
def sha1Rounds : Nat → List Nat → Nat × Nat × Nat × Nat × Nat → Nat × Nat × Nat × Nat × Nat
  | _, [], st => st
  | i, wi :: rest, (a, b, c, d, e) =>
    sha1Rounds (i + 1) rest
      ((rotl 5 a + sha1F i b c d + e + sha1K i + wi) % M32, a, rotl 30 b, c, d)

/-- Compression of one padded 64-byte block into the chaining state. -/
def sha1Block (h : Nat × Nat × Nat × Nat × Nat) (block : List Nat) : Nat × Nat × Nat × Nat × Nat :=
  let w := (sha1ExtendRev 64 (toWords block).reverse).reverse
  match h, sha1Rounds 0 w h with
  | (h0, h1, h2, h3, h4), (a, b, c, d, e) =>
    ((h0 + a) % M32, (h1 + b) % M32, (h2 + c) % M32, (h3 + d) % M32, (h4 + e) % M32)

/-- Split a padded message into `fuel` blocks of 64 bytes. -/
def sha1Chunks : Nat → List Nat → List (List Nat)
  | 0, _ => []
  | fuel + 1, l => l.take 64 :: sha1Chunks fuel (l.drop 64)

/-- The 20-byte SHA1 digest of a byte list. -/
def sha1 (msg : List Nat) : List Nat :=
  let padded := sha1Pad msg
  match (sha1Chunks (padded.length / 64) padded).foldl sha1Block
      (1732584193, 4023233417, 2562383102, 271733878, 3285377520) with
  | (h0, h1, h2, h3, h4) =>
    wordBytes h0 ++ wordBytes h1 ++ wordBytes h2 ++ wordBytes h3 ++ wordBytes h4

/-- Lowercase hexadecimal digit for a value below 16. -/
def hexChar (n : Nat) : Char :=
  if n < 10 then Char.ofNat (48 + n) else Char.ofNat (87 + n)

/-- Lowercase `%02x` rendering of a byte list. -/
def bytesToHex (l : List Nat) : List Char :=
  (l.map (fun b => [hexChar (b / 16), hexChar (b % 16)])).flatten

/-- Bytes of an ASCII string (the C code hashes the raw bytes of the
NUL-terminated strings; on the ASCII inputs at issue these are the
code points). -/
def asciiBytes (s : String) : List Nat :=
  s.data.map Char.toNat

/-- `get_local_dir` (git-access.c lines 40-57): SHA1 over
`remote || 0x00 || branch` (the `SHA1_Update(&ctx, "", 1)` hashes the single
NUL byte), then `"%s/%02x...":` the cache root (`system_default_directory()`,
passed here as `root`), a slash, and the first 8 digest bytes in lowercase
hex. -/
def get_local_dir (root remote branch : String) : String :=
  String.mk (root.data ++ '/' :: bytesToHex ((sha1 (asciiBytes remote ++ 0 :: asciiBytes branch)).take 8))

/-! ## Repository acquisition (`is_git_repository` / `is_remote_git_repository`
/ `get_remote_repo`, git-access.c 221-465).  Filesystem and libgit2 calls are
oracle fields; repository handles are opaque `Nat`s. -/

/-- Oracles for the external calls of the acquisition path: `format_string`
allocations (site by site), `stat` (`none` = stat failed, `some b` = exists
with `b` = is-a-directory), `git_repository_open`, and `git_clone`
(`none` = failure). -/
structure AcqEnv where
  allocLoc : Bool
  allocBranch : Bool
  allocLocaldir : Bool
  statDir : String → Option Bool
  openRepo : String → Option Nat
  cloneRepo : String → String → String → Option Nat

/-- Result of `is_git_repository`: the NULL return, the distinguished
`dummy_git_repository`, or a real repository handle; `branchp` is the string
`*branchp` points at when the call returns. -/
inductive GitRepoResult where
  | null
  | dummy (branchp : String)
  | repo (handle : Nat) (branchp : String)
deriving DecidableEq

/-- `update_local_repo` (git-access.c lines 221-277): open the cache
repository; open failure returns NULL, and every later remote error (origin
lookup, fetch, sync) is non-fatal, so an opened repository is always
returned. -/
def update_local_repo (env : AcqEnv) (localdir : String) : Option Nat :=
  env.openRepo localdir

/-- `create_local_repo` (git-access.c lines 279-297): clone, NULL on
failure. -/
def create_local_repo (env : AcqEnv) (localdir remote branch : String) : Option Nat :=
  env.cloneRepo remote localdir branch

/-- `get_remote_repo` (git-access.c lines 299-312): if the cache path stats,
a non-directory is corrupt (NULL) and a directory is opened-and-updated;
otherwise clone. -/
def get_remote_repo (env : AcqEnv) (localdir remote branch : String) : Option Nat :=
  match env.statDir localdir with
  | some isDir => if !isDir then none else update_local_repo env localdir
  | none => create_local_repo env localdir remote branch

/-- `is_remote_git_repository` (git-access.c lines 324-388): the scheme scan,
the `file://` prefix removal, the https identity extraction (with its effect
on `prefs`), `get_local_dir` (NULL allocation is a NULL return), then
`get_remote_repo`.  `root` stands for `system_default_directory()`. -/
def is_remote_git_repository (env : AcqEnv) (p : Prefs) (root remote branch : String) :
    Prefs × Option Nat :=
  if schemePrefixOk remote.data then
    let r1 := if (String.data ("file://")).isPrefixOf remote.data
              then String.mk (remote.data.drop 7) else remote
    let pr := httpsEffect p r1
    if env.allocLocaldir then
      (pr.1, get_remote_repo env (get_local_dir root pr.2 branch) pr.2 branch)
    else (pr.1, none)
  else (p, none)

/-- `is_git_repository` (git-access.c lines 393-465): bracket parsing, then
the point of no return - `*branchp = filename`, the two `format_string`
allocations, the remote path, and the local-directory fallback.  Returns the
updated preferences and the result with the final `*branchp`. -/
def is_git_repository (env : AcqEnv) (p : Prefs) (root filename : String) :
    Prefs × GitRepoResult :=
  match parseLocator filename with
  | none => (p, .null)
  | some (loc, branch) =>
    if !env.allocLoc then (p, .dummy filename)
    else if !env.allocBranch then (p, .dummy filename)
    else
      match is_remote_git_repository env p root loc branch with
      | (p2, some r) => (p2, .repo r branch)
      | (p2, none) =>
        match env.statDir loc with
        | some true =>
          match env.openRepo loc with
          | some r => (p2, .repo r branch)
          | none => (p2, .dummy filename)
        | _ => (p2, .dummy filename)

/-! ## Theorems -/

/-- Claim C3 (code evidence): the cleanliness callback flags an entry whose
only status flag is `GIT_STATUS_IGNORED` as dirty.  Because `~` binds
tighter than `|` in `status &= ~GIT_STATUS_CURRENT | GIT_STATUS_IGNORED`
and `GIT_STATUS_CURRENT` is zero, the mask is all-ones and nothing is
masked out, so - contrary to the claim and to the evident intent of the
masking line - an ignored-only entry (and any other nonzero status, such as
`GIT_STATUS_WT_MODIFIED = 256`) makes the tree dirty; only an entry with
status exactly `GIT_STATUS_CURRENT` is clean. -/
theorem C3_ignored_entry_makes_dirty :
    check_clean GIT_STATUS_IGNORED = true ∧
    check_clean GIT_STATUS_CURRENT = false ∧
    check_clean 256 = true ∧
    statusDirty [GIT_STATUS_IGNORED] = true := by
  decide

/-- Claim C6: the locator parser on its specified inputs -
`"/a/b/c[mybranch]"` parses to path `"/a/b/c"` and branch `"mybranch"`;
trailing separators are stripped so `"/a/b/c///[mybranch]"` parses to the
identical result; `"/a/b/c"` (no bracket suffix) fails; an input whose path
portion is empty after stripping separators fails. -/
theorem C6_parse_examples :
    parseLocator ("/a/b/c[mybranch]") = some (("/a/b/c"), ("mybranch")) ∧
    parseLocator ("/a/b/c///[mybranch]") = some (("/a/b/c"), ("mybranch")) ∧
    parseLocator ("/a/b/c") = none ∧
    parseLocator ("///[mybranch]") = none := by
  decide

/-- Claim C4, counterexample: the scheme scan of `is_remote_git_repository`
accepts the path `"://x"`, which has zero lowercase letters before `"://"`,
as a remote locator, while the claim requires one or more letters (the
spec-modelled `specRemoteOneOrMore` rejects it). -/
theorem C4_counterexample :
    schemePrefixOk (String.data ("://x")) = true ∧
    specRemoteOneOrMore (String.data ("://x")) = false := by
  decide

/-- Claim C4, amended: a path is classified as a remote locator if and only
if it begins with zero or more lowercase letters (a-z) followed immediately
by `"://"`; any other prefix (uppercase letters, digits, or anything else
before the colon) is a local path. -/
theorem C4_scheme_zero_or_more (l : List Char) :
    schemePrefixOk l = true ↔
      ∃ pre rest, l = pre ++ ':' :: '/' :: '/' :: rest ∧
        ∀ c ∈ pre, 97 ≤ c.toNat ∧ c.toNat ≤ 122 := by
  induction l with
  | nil =>
    simp only [schemePrefixOk, Bool.false_eq_true, false_iff]
    rintro ⟨pre, rest, heq, -⟩
    cases pre <;> simp at heq
  | cons c rest ih =>
    by_cases hc : 97 ≤ c.toNat ∧ c.toNat ≤ 122
    · rw [schemePrefixOk, if_pos hc, ih]
      constructor
      · rintro ⟨pre, rest2, heq, hlow⟩
        refine ⟨c :: pre, rest2, by simp [heq], ?_⟩
        intro x hx
        rcases List.mem_cons.mp hx with hx | hx
        · rw [hx]; exact hc
        · exact hlow x hx
      · rintro ⟨pre, rest2, heq, hlow⟩
        cases pre with
        | nil =>
          simp only [List.nil_append, List.cons.injEq] at heq
          rw [heq.1] at hc
          exact absurd hc (by decide)
        | cons p ps =>
          simp only [List.cons_append, List.cons.injEq] at heq
          exact ⟨ps, rest2, heq.2, fun x hx => hlow x (List.mem_cons_of_mem p hx)⟩
    · by_cases hcol : c = ':'
      · subst hcol
        rw [schemePrefixOk, if_neg hc, if_pos rfl]
        simp only [decide_eq_true_eq]
        constructor
        · intro h
          match rest, h with
          | a :: b :: t, h =>
            simp only [List.take_succ_cons, List.take_zero, List.cons.injEq, and_true] at h
            rw [h.1, h.2]
            exact ⟨[], t, rfl, by simp⟩
        · rintro ⟨pre, rest2, heq, hlow⟩
          cases pre with
          | nil =>
            simp only [List.nil_append, List.cons.injEq, true_and] at heq
            rw [heq]
            rfl
          | cons p ps =>
            simp only [List.cons_append, List.cons.injEq] at heq
            have := hlow p (List.mem_cons_self p ps)
            rw [← heq.1] at this
            exact absurd this (by decide)
      · rw [schemePrefixOk, if_neg hc, if_neg hcol]
        simp only [Bool.false_eq_true, false_iff]
        rintro ⟨pre, rest2, heq, hlow⟩
        cases pre with
        | nil =>
          simp only [List.nil_append, List.cons.injEq] at heq
          exact hcol heq.1
        | cons p ps =>
          simp only [List.cons_append, List.cons.injEq] at heq
          have := hlow p (List.mem_cons_self p ps)
          rw [← heq.1] at this
          exact hc this

set_option maxRecDepth 8192 in
/-- Claim C5: the cache address is a pure function of `(remote, branch)` -
always the cache root, a slash, and the lowercase-hex rendering of the first
8 bytes of the SHA1 digest of `remote || 0x00 || branch` - and the zero
separator byte keeps adjacent concatenations apart: for every cache root,
`address("repo1","branch")` and `address("repo","1branch")` differ. -/
theorem C5_cache_address :
    (∀ root remote branch : String,
      get_local_dir root remote branch =
        String.mk (root.data ++ '/' ::
          bytesToHex ((sha1 (asciiBytes remote ++ 0 :: asciiBytes branch)).take 8))) ∧
    (∀ root : String,
      get_local_dir root ("repo1") ("branch") ≠ get_local_dir root ("repo") ("1branch")) := by
  refine ⟨fun _ _ _ => rfl, fun root h => ?_⟩
  have h2 : root.data ++ ('/' ::
        bytesToHex ((sha1 (asciiBytes ("repo1") ++ 0 :: asciiBytes ("branch"))).take 8)) =
      root.data ++ ('/' ::
        bytesToHex ((sha1 (asciiBytes ("repo") ++ 0 :: asciiBytes ("1branch"))).take 8)) :=
    congrArg String.data h
  exact absurd (List.append_cancel_left h2) (by decide)

/-- Claim C8, counterexample: the input `"p[]"` has a bracket suffix and is
accepted by the locator parser, yet the resulting branch string is empty -
the claimed invariant "branch is never empty when a bracket suffix was
present" fails. -/
theorem C8_counterexample :
    parseLocator ("p[]") = some (("p"), ("")) := by
  decide

/-- Claim C8, amended: for every input accepted by the locator parser, the
resulting path is never empty (the branch, by contrast, is exactly the text
between the brackets and may be empty, as for `"p[]"`). -/
theorem C8_amended_path_nonempty (s p b : String)
    (h : parseLocator s = some (p, b)) : p ≠ "" := by
  unfold parseLocator at h
  split at h
  · split at h
    · split at h
      · exact absurd h (by simp)
      · rename_i hne
        simp only [Option.some.injEq, Prod.mk.injEq] at h
        rw [← h.1]
        intro hcon
        have hdata := congrArg String.data hcon
        exact hne (List.reverse_eq_nil_iff.mp hdata)
    · exact absurd h (by simp)
  · exact absurd h (by simp)

/-- Claim C8 witness: the amended theorem applied to the accepted input
`"/a[b]"`. -/
theorem C8_amended_witness : (("/a") : String) ≠ ("") :=
  C8_amended_path_nonempty ("/a[b]") ("/a") ("b") (by decide)

/-- Claim C7: parsing `"https://user%40host@example.com/repo[main]"` yields
branch `"main"` and the url `"https://user%40host@example.com/repo"`; since
its `@` comes before the first `/` after the `https://` prefix, the
extraction takes `"user%40host"` as the encoded account identity and shifts
the remainder left to give `"https://example.com/repo"`; an `@` at or after
that first `/` (as in `"https://example.com/re@po"`) leaves the url
untouched. -/
theorem C7_https_identity_extraction :
    parseLocator ("https://user%40host@example.com/repo[main]") =
      some (("https://user%40host@example.com/repo"), ("main")) ∧
    httpsIdentity ("https://user%40host@example.com/repo") =
      some (("user%40host"), ("https://example.com/repo")) ∧
    (∀ p : Prefs, httpsEffect p ("https://user%40host@example.com/repo") =
      ({ p with cloud_storage_email_encoded := some ("user%40host") },
       ("https://example.com/repo"))) ∧
    (∀ p : Prefs, httpsEffect p ("https://example.com/re@po") =
      (p, ("https://example.com/re@po"))) := by
  refine ⟨by decide, by decide, fun p => ?_, fun p => ?_⟩
  · unfold httpsEffect
    rw [show httpsIdentity ("https://user%40host@example.com/repo") =
      some (("user%40host"), ("https://example.com/repo")) from by decide]
  · unfold httpsEffect
    rw [show httpsIdentity ("https://example.com/re@po") = none from by decide]

/-- Claim C10: extracting an embedded identity stores exactly the extracted
substring into the preferences' encoded-account-identity field and nothing
else - the stored password is untouched, and a parse that extracts nothing
leaves the preferences and the url exactly as they were - and the https
credential callback (shared by fetch, push and clone) supplies precisely the
stored field as the username. -/
theorem C10_prefs_effect (p : Prefs) (remote : String) :
    ((httpsEffect p remote).1.cloud_storage_password = p.cloud_storage_password) ∧
    (httpsIdentity remote = none → httpsEffect p remote = (p, remote)) ∧
    (∀ id r2, httpsIdentity remote = some (id, r2) →
      (httpsEffect p remote).1 =
        { p with cloud_storage_email_encoded := some id } ∧
      (credential_https_cb (httpsEffect p remote).1).username = some id) := by
  cases hid : httpsIdentity remote with
  | none =>
    refine ⟨by simp [httpsEffect, hid], fun _ => by simp [httpsEffect, hid], ?_⟩
    intro id r2 hsome
    exact absurd hsome (by simp)
  | some pr =>
    obtain ⟨id0, r0⟩ := pr
    refine ⟨by simp [httpsEffect, hid], fun hn => absurd hn (by simp), ?_⟩
    intro id r2 hsome
    simp only [Option.some.injEq, Prod.mk.injEq] at hsome
    obtain ⟨hid1, -⟩ := hsome
    subst hid1
    simp [httpsEffect, hid, credential_https_cb]

/-- Claim C2: when the references differ and the working tree is dirty, the
sync attempt is aborted with the dirty-tree reason and the state is
untouched; the result is the same for every backend environment, so it is
independent of the merge-base computation and of any ahead/behind
relationship - the cleanliness check comes first. -/
theorem C2_dirty_aborts (env : SyncEnv) (st : SyncState)
    (hne : st.localRef ≠ st.remoteRef)
    (hdirty : statusDirty st.statusEntries = true) :
    try_to_update env st = (.Aborted .dirtyTree, st) := by
  unfold try_to_update
  rw [if_neg hne, if_pos hdirty]

/-- Concrete backend environment used by the sync witnesses: every backend
call succeeds and the merge base of any two oids is oid 1. -/
def syncEnvW : SyncEnv :=
  { mergeBase := fun _ _ => some 1,
    setTargetOk := true, lookupOk := true, resetOk := true, pushOk := true }

/-- Concrete state for the C2 witness: differing oids and one modified
working-tree entry. -/
def syncStDirty : SyncState :=
  { localRef := some 1, remoteRef := some 2, statusEntries := [256],
    isBare := false, localIsHead := true }

/-- Claim C2 witness: the dirty-tree abort at a concrete environment and
state. -/
theorem C2_dirty_aborts_witness :
    try_to_update syncEnvW syncStDirty = (.Aborted .dirtyTree, syncStDirty) :=
  C2_dirty_aborts syncEnvW syncStDirty (by decide) (by decide)

/-- Claim C1: on a clean tree with `local_oid != remote_oid` and a computed
merge base, the decision of `try_to_update` is exactly: `FastForwardLocal`
when the base is the local oid (and - whether the reference is just moved,
for a bare repository or a non-HEAD branch, or a hard reset is performed -
when the backend calls succeed the local reference ends at the remote oid);
`PushLocal` when the base is the remote oid; otherwise `DivergedBareRepo`
for a bare repository, `DivergedNotHead` when the branch is not HEAD, and
`DivergedNeedsMerge` otherwise, with the state untouched in all three
diverged cases. -/
theorem C1_sync_decision (env : SyncEnv) (st : SyncState) (l r base : Nat)
    (hl : st.localRef = some l) (hr : st.remoteRef = some r) (hne : l ≠ r)
    (hclean : statusDirty st.statusEntries = false)
    (hbase : env.mergeBase l r = some base) :
    (base = l → (try_to_update env st).1 = .FastForwardLocal ∧
      (env.setTargetOk = true → env.lookupOk = true → env.resetOk = true →
        (try_to_update env st).2.localRef = some r)) ∧
    (base ≠ l → base = r → try_to_update env st = (.PushLocal, st)) ∧
    (base ≠ l → base ≠ r → st.isBare = true →
      try_to_update env st = (.DivergedBareRepo, st)) ∧
    (base ≠ l → base ≠ r → st.isBare = false → st.localIsHead = false →
      try_to_update env st = (.DivergedNotHead, st)) ∧
    (base ≠ l → base ≠ r → st.isBare = false → st.localIsHead = true →
      try_to_update env st = (.DivergedNeedsMerge, st)) := by
  have hcmp : ¬ st.localRef = st.remoteRef := by
    rw [hl, hr]
    simp [hne]
  unfold try_to_update
  rw [if_neg hcmp]
  rw [hclean]
  simp only [Bool.false_eq_true, if_false]
  rw [hl, hr]
  dsimp only
  rw [hbase]
  dsimp only
  refine ⟨?_, ?_, ?_, ?_, ?_⟩
  · intro hbl
    rw [if_pos hbl]
    refine ⟨rfl, ?_⟩
    intro h1 h2 h3
    unfold reset_to_remote
    cases hb : st.isBare || !st.localIsHead <;> simp [h1, h2, h3]
  · intro hbl hbr
    rw [if_neg hbl, if_pos hbr]
    rfl
  · intro hbl hbr hbare
    rw [if_neg hbl, if_neg hbr, if_pos hbare]
  · intro hbl hbr hbare hhead
    rw [if_neg hbl, if_neg hbr, hbare, hhead]
    simp
  · intro hbl hbr hbare hhead
    rw [if_neg hbl, if_neg hbr, hbare, hhead]
    simp

/-- Concrete state for the C1 witness: clean tree, local oid 1, remote
oid 2, merge base 1 (remote strictly ahead), working tree checked out. -/
def syncStClean : SyncState :=
  { localRef := some 1, remoteRef := some 2, statusEntries := [],
    isBare := false, localIsHead := true }

/-- Claim C1 witness: at the concrete clean state with the remote strictly
ahead, the decision is a fast-forward and the local reference ends at the
remote oid. -/
theorem C1_sync_decision_witness :
    (try_to_update syncEnvW syncStClean).1 = .FastForwardLocal ∧
    (try_to_update syncEnvW syncStClean).2.localRef = some 2 := by
  have h := C1_sync_decision syncEnvW syncStClean 1 2 1 rfl rfl (by decide) rfl rfl
  exact ⟨(h.1 rfl).1, (h.1 rfl).2 rfl rfl rfl⟩

/-- Claim C9: once the input matches the locator shape - `parseLocator`
succeeds - `is_git_repository` never returns NULL: on every subsequent
failure (allocation failure, a path that is neither remote nor an existing
directory, open failure) it returns the dummy repository with the branch
pointer still at the whole original input, and only a success returns a real
repository, with the branch pointer at just the branch text. -/
theorem C9_no_null_after_parse (env : AcqEnv) (p : Prefs)
    (root filename loc branch : String)
    (h : parseLocator filename = some (loc, branch)) :
    (is_git_repository env p root filename).2 ≠ .null ∧
    (∀ s, (is_git_repository env p root filename).2 = .dummy s → s = filename) ∧
    (∀ r s, (is_git_repository env p root filename).2 = .repo r s → s = branch) := by
  unfold is_git_repository
  rw [h]
  dsimp only
  cases ha : env.allocLoc with
  | false => simp
  | true =>
    cases hb : env.allocBranch with
    | false => simp
    | true =>
      simp only [Bool.not_true, Bool.false_eq_true, if_false]
      rcases hrem : is_remote_git_repository env p root loc branch with ⟨p2, r2⟩
      cases r2 with
      | some r =>
        simp
      | none =>
        cases hsd : env.statDir loc with
        | none => simp
        | some isDir =>
          cases isDir with
          | false => simp
          | true =>
            cases hor : env.openRepo loc with
            | none => simp
            | some r => simp

/-- Concrete acquisition environment for the C9 witness: allocations
succeed, nothing stats, opens or clones. -/
def acqEnvW : AcqEnv :=
  { allocLoc := true, allocBranch := true, allocLocaldir := true,
    statDir := fun _ => none,
    openRepo := fun _ => none,
    cloneRepo := fun _ _ _ => none }

/-- Concrete preferences for the witnesses: nothing stored. -/
def prefsW : Prefs :=
  { cloud_storage_email_encoded := none, cloud_storage_password := none }

/-- Claim C9 witness: the theorem applied at a concrete environment and the
concrete accepted input `"/a/b/c[mybranch]"`. -/
theorem C9_no_null_after_parse_witness :
    (is_git_repository acqEnvW prefsW ("/cache") ("/a/b/c[mybranch]")).2 ≠ .null :=
  (C9_no_null_after_parse acqEnvW prefsW ("/cache") ("/a/b/c[mybranch]")
    ("/a/b/c") ("mybranch") (by decide)).1
